import Mathlib

/-!
# Verification of the quantum rule-checking layer

A shallow embedding of `src/ex_00_quantum_loop_enforcer.py`: the three
rule-checking decorators (`reversible`, `no_information_deletion`,
`no_control_flow_divergence`), the `QuantumSafeFunction` wrapper and the
`QuantumLoop` bounded-repetition builder, with theorems settling the
specification's claims about them.

Python exceptions are modelled with `Except`; the violation exceptions carry
the data that the Python f-string messages interpolate.  The per-instance
`seen_outputs` dict of `reversible` is modelled as an insertion-ordered
association list with Python-dict lookup/update semantics, threaded
explicitly through each call.
-/

/-- The violation taxonomy of the script (`QuantumRuleViolation` and its three
subclasses).  Each constructor carries the values interpolated into the
corresponding Python error message. -/
inductive QuantumRuleViolation where
  | irreversibleFunction (funcName : String) (priorInput newInput output : Int)
  | informationDeletion (funcName : String)
  | controlFlowDivergence (funcName : String) (keyword : String)
  deriving DecidableEq, Repr

/-- The `seen_outputs` dict of one `reversible` instance: an insertion-ordered
map from observed output to the input that produced it. -/
abbrev Ledger := List (Int × Int)

/-- Python dict lookup (`seen_outputs[y]` / `y in seen_outputs`). -/
def dictGet : Ledger → Int → Option Int
  | [], _ => none
  | p :: rest, k => if p.1 = k then some p.2 else dictGet rest k

/-- Python dict update (`seen_outputs[y] = x`): overwrite in place when the key
is present, append at the end when it is new. -/
def dictSet : Ledger → Int → Int → Ledger
  | [], k, v => [(k, v)]
  | p :: rest, k, v => if p.1 = k then (k, v) :: rest else p :: dictSet rest k v

/-- One call of the closure `wrapper` produced by `reversible(func)`
(lines 50-58 of the source): compute `y = func x`; if `y` is already recorded
for a different input, raise `IrreversibleFunctionError` and leave the ledger
untouched (the `raise` happens before the assignment); otherwise record
`y ↦ x` and return `y`. -/
def reversibleCall (funcName : String) (f : Int → Int) (seen : Ledger) (x : Int) :
    Except QuantumRuleViolation Int × Ledger :=
  let y := f x
  match dictGet seen y with
  | some xp =>
      if xp ≠ x then
        (Except.error (QuantumRuleViolation.irreversibleFunction funcName xp x y), seen)
      else
        (Except.ok y, dictSet seen y x)
  | none => (Except.ok y, dictSet seen y x)

/-- A sequence of calls through one `reversible`-wrapped instance, threading
its private ledger; returns the per-call outcomes and the final ledger. -/
def reversibleRun (funcName : String) (f : Int → Int) :
    Ledger → List Int → List (Except QuantumRuleViolation Int) × Ledger
  | seen, [] => ([], seen)
  | seen, x :: xs =>
    let r := reversibleCall funcName f seen x
    let rest := reversibleRun funcName f r.2 xs
    (r.1 :: rest.1, rest.2)

/-- The wrapper produced by `no_information_deletion(func)` (lines 63-79):
forward the arguments, raise `InformationDeletionError` when the result is
`None` (modelled as `Option.none`), return the result unchanged otherwise. -/
def no_information_deletion {α β : Type} (funcName : String) (f : α → Option β)
    (args : α) : Except QuantumRuleViolation β :=
  match f args with
  | none => Except.error (QuantumRuleViolation.informationDeletion funcName)
  | some result => Except.ok result

/-- The static view of a Python function that `no_control_flow_divergence`
inspects: its `__name__`, its `__code__.co_names` tuple (the global names
referenced by the compiled body), and its runtime behaviour `fn` (unary on
integers, which is all the script uses). -/
structure PyFunction where
  name : String
  coNames : List String
  fn : Int → Int

/-- The forbidden identifier set `{"if", "while", "break", "continue"}` of
line 88, as a list fixing one iteration order (CPython set iteration order is
unspecified). -/
def forbiddenNames : List String := ["if", "while", "break", "continue"]

/-- The decorator `no_control_flow_divergence` (lines 82-96): at decoration
time, raise `ControlFlowDivergenceError` naming the first forbidden identifier
found in `func.__code__.co_names`, else return the function object itself.
It never calls `fn`. -/
def no_control_flow_divergence (func : PyFunction) :
    Except QuantumRuleViolation PyFunction :=
  match forbiddenNames.find? (fun n => func.coNames.contains n) with
  | some n => Except.error (QuantumRuleViolation.controlFlowDivergence func.name n)
  | none => Except.ok func

/-- Whether the control-flow checker accepts a function (returns it rather
than raising). -/
def cfAccepts (func : PyFunction) : Bool :=
  match no_control_flow_divergence func with
  | Except.ok _ => true
  | Except.error _ => false

/-- A function whose body is a runtime-data-dependent branch,
`def branchy_abs(x): return x if x > 0 else -x` (equivalently an `if`
statement).  CPython compiles branching keywords to bytecode, not to
referenced names, and the body references no globals, so its
`__code__.co_names` is empty. -/
def branchyAbs : PyFunction :=
  ⟨"branchy_abs", [], fun x => if 0 < x then x else -x⟩

/-- `QuantumSafeFunction` (lines 103-113): stores the given function; the
constructor performs no validation. -/
structure QuantumSafeFunction where
  func : Int → Int

/-- `QuantumSafeFunction.evaluate` (line 112-113). -/
def QuantumSafeFunction.evaluate (q : QuantumSafeFunction) (x : Int) : Int :=
  q.func x

/-- A Qiskit `Gate` as far as the script observes it: its name, size, and the
instruction list of the circuit it was converted from. -/
structure Gate where
  name : String
  numQubits : Nat
  ops : List (String × List Nat)
  deriving DecidableEq, Repr

/-- `QuantumSafeFunction.to_gate` (lines 115-122): builds a 2-qubit circuit
named `name` holding a single `cx 0 1` placeholder and converts it to a gate,
ignoring `func` entirely (the stub). -/
def QuantumSafeFunction.to_gate (_q : QuantumSafeFunction) (name : String) : Gate :=
  ⟨name, 2, [("cx", [0, 1])]⟩

/-- One appended instruction of a circuit: a gate and its qubit placement. -/
structure CircuitInstr where
  gate : Gate
  qubits : List Nat
  deriving DecidableEq, Repr

/-- A Qiskit `QuantumCircuit` as far as the script observes it: qubit count
and appended instructions in order. -/
structure QuantumCircuitM where
  numQubits : Nat
  data : List CircuitInstr
  deriving DecidableEq, Repr

/-- `QuantumLoop` (lines 129-146): iteration count and body as stored by a
successfully constructed loop. -/
structure QuantumLoop where
  iterations : Int
  body : QuantumSafeFunction

/-- `QuantumLoop.__init__` (lines 137-146): raise `ValueError` when
`iterations <= 0`, otherwise store count and body unchanged. -/
def QuantumLoop.init (iterations : Int) (body : QuantumSafeFunction) :
    Except String QuantumLoop :=
  if iterations ≤ 0 then
    Except.error "Quantum loops must have fixed positive iterations"
  else
    Except.ok ⟨iterations, body⟩

/-- The effect of the `for _ in range(n): qc.append(gate, [0, 1])` loop of
`build_circuit`: append the same instruction `n` times. -/
def appendGateN (g : Gate) (q : List Nat) : Nat → List CircuitInstr
  | 0 => []
  | n + 1 => appendGateN g q n ++ [⟨g, q⟩]

/-- `QuantumLoop.build_circuit` (lines 148-156): make a 2-qubit circuit, call
`self.body.to_gate()` once, append that one gate `iterations` times at
`[0, 1]`. -/
def QuantumLoop.build_circuit (l : QuantumLoop) : QuantumCircuitM :=
  let gate := l.body.to_gate "U_f"
  ⟨2, appendGateN gate [0, 1] l.iterations.toNat⟩

/-- `to_gate` instrumented with a call counter, to state how many times
`build_circuit` performs gate synthesis. -/
def to_gate_counted (q : QuantumSafeFunction) (name : String) (count : Nat) :
    Gate × Nat :=
  (q.to_gate name, count + 1)

/-- `build_circuit` with every `to_gate` call counted: the single call happens
before the loop, and the loop body appends the already-synthesized gate
without calling `to_gate` again. -/
def QuantumLoop.build_circuit_counted (l : QuantumLoop) : QuantumCircuitM × Nat :=
  let gc := to_gate_counted l.body "U_f" 0
  (⟨2, appendGateN gc.1 [0, 1] l.iterations.toNat⟩, gc.2)

/-- The collection of all `reversible`-wrapped instances alive in a run of the
program: each call to the decorator `reversible` allocates a fresh closure
cell `seen_outputs = {}` (line 47), modelled as a store of ledgers indexed by
allocation order. -/
structure RevSystem where
  nextId : Nat
  ledgers : Nat → Ledger

/-- The initial program state: no wrapped instances yet. -/
def emptySystem : RevSystem := ⟨0, fun _ => []⟩

/-- The decorator `reversible` itself (lines 43-60): allocate a fresh, empty
ledger for the new wrapped instance and return its handle. -/
def wrapReversible (s : RevSystem) : Nat × RevSystem :=
  (s.nextId, ⟨s.nextId + 1, fun i => if i = s.nextId then [] else s.ledgers i⟩)

/-- Calling wrapped instance `inst`: the closure reads and writes only its own
`seen_outputs` cell. -/
def callReversible (funcName : String) (f : Int → Int) (s : RevSystem)
    (inst : Nat) (x : Int) : Except QuantumRuleViolation Int × RevSystem :=
  let r := reversibleCall funcName f (s.ledgers inst) x
  (r.1, ⟨s.nextId, fun i => if i = inst then r.2 else s.ledgers i⟩)

/-! ## Helper lemmas -/

/-- Looking up a key just written returns the value just written. -/
theorem dictGet_dictSet_self (d : Ledger) (k v : Int) :
    dictGet (dictSet d k v) k = some v := by
  induction d with
  | nil => simp [dictSet, dictGet]
  | cons p rest ih =>
      by_cases h : p.1 = k
      · simp [dictSet, dictGet, h]
      · simp [dictSet, dictGet, h, ih]

/-- A call whose output is either unrecorded or recorded for the same input
succeeds and records the pair. -/
theorem reversibleCall_eq_ok (funcName : String) (f : Int → Int) (seen : Ledger)
    (x : Int) (h : ∀ x', dictGet seen (f x) = some x' → x' = x) :
    reversibleCall funcName f seen x = (Except.ok (f x), dictSet seen (f x) x) := by
  unfold reversibleCall
  cases hg : dictGet seen (f x) with
  | none => simp [hg]
  | some xp =>
      have hx : xp = x := h xp hg
      simp [hg, hx]

/-- A call whose output is recorded for a different input fails and leaves the
ledger unchanged. -/
theorem reversibleCall_eq_error (funcName : String) (f : Int → Int)
    (seen : Ledger) (x x' : Int) (h1 : dictGet seen (f x) = some x')
    (h2 : x' ≠ x) :
    reversibleCall funcName f seen x =
      (Except.error (QuantumRuleViolation.irreversibleFunction funcName x' x (f x)),
        seen) := by
  unfold reversibleCall
  simp [h1, h2]

/-- Repeating an already-recorded evaluation any number of times keeps
succeeding. -/
theorem reversibleRun_replicate_of_mem (funcName : String) (f : Int → Int)
    (x : Int) :
    ∀ (n : Nat) (seen : Ledger), dictGet seen (f x) = some x →
      (reversibleRun funcName f seen (List.replicate n x)).1 =
        List.replicate n (Except.ok (f x)) := by
  intro n
  induction n with
  | zero => intro seen _; rfl
  | succ m ih =>
      intro seen h
      have hcall := reversibleCall_eq_ok funcName f seen x
        (fun x' hx' => by rw [h] at hx'; exact (Option.some.inj hx').symm)
      simp only [List.replicate_succ, reversibleRun, hcall]
      have hnext : dictGet (dictSet seen (f x) x) (f x) = some x :=
        dictGet_dictSet_self seen (f x) x
      simp [ih _ hnext]

/-- The control-flow checker's acceptance is the emptiness of the first
forbidden name found in the static name table. -/
theorem cfAccepts_eq (p : PyFunction) :
    cfAccepts p = (forbiddenNames.find? (fun n => p.coNames.contains n)).isNone := by
  unfold cfAccepts no_control_flow_divergence
  cases forbiddenNames.find? (fun n => p.coNames.contains n) <;> rfl

/-! ## Claims -/

/-- C1: for every wrapped function and every input `x` whose output `f x` is
not recorded in the instance's ledger for a different input, the call returns
`f x` and records the mapping `f x ↦ x` in this instance's ledger. -/
theorem claim_c1 (funcName : String) (f : Int → Int) (seen : Ledger) (x : Int)
    (h : ∀ x', dictGet seen (f x) = some x' → x' = x) :
    reversibleCall funcName f seen x = (Except.ok (f x), dictSet seen (f x) x) :=
  reversibleCall_eq_ok funcName f seen x h

theorem claim_c1_witness :
    reversibleCall "reversible_increment" (fun x => x + 1) [] 5 =
      (Except.ok 6, [(6, 5)]) :=
  claim_c1 "reversible_increment" (fun x => x + 1) [] 5
    (fun x' hx' => by simp [dictGet] at hx')

/-- C2: if a call's output `f x` is recorded in the ledger for a prior input
`x' ≠ x`, the call fails with `IrreversibleFunctionError` identifying `x'`,
`x` and the colliding output, and the ledger is returned unchanged. -/
theorem claim_c2 (funcName : String) (f : Int → Int) (seen : Ledger)
    (x x' : Int) (h1 : dictGet seen (f x) = some x') (h2 : x' ≠ x) :
    reversibleCall funcName f seen x =
      (Except.error
          (QuantumRuleViolation.irreversibleFunction funcName x' x (f x)),
        seen) :=
  reversibleCall_eq_error funcName f seen x x' h1 h2

/-- The spec's end-to-end negative example: the constant-zero function,
called on `0` (recording `0 ↦ 0`) and then on `1`, fails on the second call
identifying inputs `0` and `1` colliding on output `0`. -/
theorem claim_c2_witness :
    reversibleCall "const_zero" (fun _ => 0) [(0, 0)] 1 =
      (Except.error
          (QuantumRuleViolation.irreversibleFunction "const_zero" 0 1 0),
        [(0, 0)]) :=
  claim_c2 "const_zero" (fun _ => 0) [(0, 0)] 1 0 (by decide) (by decide)

/-- C3: a call succeeds with value `f x` exactly when no different input is
recorded for output `f x` (only two distinct inputs colliding on one output
are a violation), and repeated calls on the same `x` from a fresh instance all
succeed. -/
theorem claim_c3 (funcName : String) (f : Int → Int) (seen : Ledger) (x : Int) :
    ((reversibleCall funcName f seen x).1 = Except.ok (f x) ↔
      ∀ x', dictGet seen (f x) = some x' → x' = x)
    ∧ ∀ n : Nat, (reversibleRun funcName f [] (List.replicate n x)).1 =
        List.replicate n (Except.ok (f x)) := by
  constructor
  · constructor
    · intro hok x' hx'
      by_contra hne
      rw [reversibleCall_eq_error funcName f seen x x' hx' hne] at hok
      exact Except.noConfusion hok
    · intro h
      rw [reversibleCall_eq_ok funcName f seen x h]
  · intro n
    cases n with
    | zero => rfl
    | succ m =>
        have hcall := reversibleCall_eq_ok funcName f [] x
          (fun x' hx' => by simp [dictGet] at hx')
        simp only [List.replicate_succ, reversibleRun, hcall]
        have hnext := dictGet_dictSet_self [] (f x) x
        simp [reversibleRun_replicate_of_mem funcName f x m _ hnext]

theorem claim_c3_witness :
    (reversibleRun "identity" (fun x => x) [] (List.replicate 2 7)).1 =
      List.replicate 2 (Except.ok 7) :=
  (claim_c3 "identity" (fun x => x) [] 7).2 2

/-- C4: the information-preservation wrapper fails with
`InformationDeletionError` naming the function exactly when the result is the
absent sentinel `None`, and returns any non-absent result unchanged. -/
theorem claim_c4 {α β : Type} (funcName : String) (f : α → Option β) (args : α) :
    (no_information_deletion funcName f args =
        Except.error (QuantumRuleViolation.informationDeletion funcName) ↔
      f args = none)
    ∧ ∀ r : β, (no_information_deletion funcName f args = Except.ok r ↔
        f args = some r) := by
  unfold no_information_deletion
  cases hf : f args with
  | none => simp
  | some v => simp

theorem claim_c4_witness :
    no_information_deletion "double" (fun n : Int => some (n + n)) 3 =
      Except.ok 6 :=
  ((claim_c4 "double" (fun n : Int => some (n + n)) 3).2 6).mpr rfl

/-- C5: the control-flow check happens at decoration time on the static name
table alone: it returns the very same function object when no forbidden name
is in `co_names`; any raised `ControlFlowDivergenceError` names a forbidden
identifier actually present in `co_names`; and the decision never depends on
the function's runtime behaviour (no call is made). -/
theorem claim_c5 (func : PyFunction) :
    (no_control_flow_divergence func = Except.ok func ↔
      ∀ k ∈ forbiddenNames, ¬ k ∈ func.coNames)
    ∧ (∀ k, no_control_flow_divergence func =
        Except.error (QuantumRuleViolation.controlFlowDivergence func.name k) →
        k ∈ forbiddenNames ∧ k ∈ func.coNames)
    ∧ ∀ g : Int → Int, cfAccepts ⟨func.name, func.coNames, g⟩ = cfAccepts func := by
  refine ⟨?_, ?_, ?_⟩
  · unfold no_control_flow_divergence
    cases hfind : forbiddenNames.find? (fun n => func.coNames.contains n) with
    | none =>
        simp only [true_iff, iff_true]
        intro k hk
        have := List.find?_eq_none.mp hfind k hk
        simpa using this
    | some n =>
        have hmem : n ∈ forbiddenNames := List.mem_of_find?_eq_some hfind
        have hcont : func.coNames.contains n = true := List.find?_some hfind
        exact iff_of_false (by simp)
          (fun hall => hall n hmem (by simpa using hcont))
  · intro k hk
    unfold no_control_flow_divergence at hk
    cases hfind : forbiddenNames.find? (fun n => func.coNames.contains n) with
    | none => rw [hfind] at hk; exact Except.noConfusion hk
    | some n =>
        rw [hfind] at hk
        have hn : n = k := by
          have := Except.error.inj hk
          exact congrArg (fun v => match v with
            | QuantumRuleViolation.controlFlowDivergence _ w => w
            | _ => n) this
        subst hn
        refine ⟨List.mem_of_find?_eq_some hfind, ?_⟩
        have hcont : func.coNames.contains n = true := List.find?_some hfind
        simpa using hcont
  · intro g
    rw [cfAccepts_eq, cfAccepts_eq]

theorem claim_c5_witness :
    no_control_flow_divergence ⟨"reversible_increment", [], fun x => x + 1⟩ =
      Except.ok ⟨"reversible_increment", [], fun x => x + 1⟩ :=
  (claim_c5 ⟨"reversible_increment", [], fun x => x + 1⟩).1.mpr (by decide)

/-- C6: constructing a `QuantumLoop` raises `ValueError` exactly when the
iteration count is zero or negative, and for a positive count it succeeds
storing the count and body unchanged. -/
theorem claim_c6 (n : Int) (body : QuantumSafeFunction) :
    (QuantumLoop.init n body =
        Except.error "Quantum loops must have fixed positive iterations" ↔
      n ≤ 0)
    ∧ (QuantumLoop.init n body = Except.ok ⟨n, body⟩ ↔ 0 < n) := by
  by_cases h : n ≤ 0 <;> simp [QuantumLoop.init, h] <;> omega

theorem claim_c6_witness :
    QuantumLoop.init 3 ⟨fun x => x + 1⟩ =
      Except.ok ⟨3, ⟨fun x => x + 1⟩⟩ :=
  (claim_c6 3 ⟨fun x => x + 1⟩).2.mpr (by decide)

/-- The append loop of `build_circuit` produces `n` copies of the one
instruction. -/
theorem appendGateN_eq_replicate (g : Gate) (q : List Nat) (n : Nat) :
    appendGateN g q n = List.replicate n ⟨g, q⟩ := by
  induction n with
  | zero => rfl
  | succ m ih => rw [appendGateN, ih, ← List.replicate_succ']

/-- C7: for a loop with positive iteration count `N`, `build_circuit` calls
the body's gate synthesis exactly once and emits exactly `N` instructions,
each the very instruction holding that one gate (so all repetitions equal one
direct synthesis call). -/
theorem claim_c7 (l : QuantumLoop) (h : 0 < l.iterations) :
    l.build_circuit.data =
      List.replicate l.iterations.toNat ⟨l.body.to_gate "U_f", [0, 1]⟩
    ∧ (l.build_circuit.data.length : Int) = l.iterations
    ∧ l.build_circuit_counted = (l.build_circuit, 1)
    ∧ ∀ instr ∈ l.build_circuit.data, instr = ⟨l.body.to_gate "U_f", [0, 1]⟩ := by
  have hdata : l.build_circuit.data =
      List.replicate l.iterations.toNat ⟨l.body.to_gate "U_f", [0, 1]⟩ :=
    appendGateN_eq_replicate _ _ _
  refine ⟨hdata, ?_, rfl, ?_⟩
  · rw [hdata, List.length_replicate]
    exact Int.toNat_of_nonneg (le_of_lt h)
  · intro instr hins
    rw [hdata] at hins
    exact List.eq_of_mem_replicate hins

theorem claim_c7_witness :
    (QuantumLoop.mk 3 ⟨fun x => x + 1⟩).build_circuit.data =
      List.replicate 3 ⟨⟨"U_f", 2, [("cx", [0, 1])]⟩, [0, 1]⟩ :=
  (claim_c7 (QuantumLoop.mk 3 ⟨fun x => x + 1⟩) (by decide)).1

/-- Counterexample to C8 as stated: a `QuantumSafeFunction` can be constructed
directly from the constant-zero function — with no checker pipeline and no
evidence — and evaluates successfully, even though that function fails the
reversibility check (wrapping it and calling `0` then `1` raises). -/
theorem claim_c8_counterexample :
    QuantumSafeFunction.evaluate (QuantumSafeFunction.mk (fun _ => 0)) 1 = 0
    ∧ (reversibleRun "const_zero"
          (QuantumSafeFunction.mk (fun _ => 0)).func [] [0, 1]).1 =
        [Except.ok 0,
          Except.error
            (QuantumRuleViolation.irreversibleFunction "const_zero" 0 1 0)] :=
  ⟨rfl, rfl⟩

/-- C8 (amended): the wrapper stores the given unary integer function
unchanged and never re-validates it — `evaluate` simply forwards to the
stored function; the constructor itself enforces no check, so creation via
the checker pipeline is a usage convention, not a guarantee of the type. -/
theorem claim_c8 (f : Int → Int) (x : Int) :
    (QuantumSafeFunction.mk f).func = f
    ∧ QuantumSafeFunction.evaluate (QuantumSafeFunction.mk f) x = f x :=
  ⟨rfl, rfl⟩

theorem claim_c8_witness :
    QuantumSafeFunction.evaluate (QuantumSafeFunction.mk (fun x => x + 1)) 4 = 5 :=
  (claim_c8 (fun x => x + 1) 4).2

/-- C9: wrapping twice allocates two distinct instances, each with its own
ledger created empty at its wrap time; a call through one instance leaves
every other instance's ledger unchanged, and both its outcome and its own
ledger update are determined by its own ledger alone. -/
theorem claim_c9 (funcName : String) (f : Int → Int) (s : RevSystem) (x : Int)
    (i j : Nat) (h : i ≠ j) :
    ((wrapReversible s).1 ≠ (wrapReversible (wrapReversible s).2).1
      ∧ (wrapReversible (wrapReversible s).2).2.ledgers (wrapReversible s).1 = []
      ∧ (wrapReversible (wrapReversible s).2).2.ledgers
          (wrapReversible (wrapReversible s).2).1 = [])
    ∧ (callReversible funcName f s i x).2.ledgers j = s.ledgers j
    ∧ (callReversible funcName f s i x).1 =
        (reversibleCall funcName f (s.ledgers i) x).1
    ∧ (callReversible funcName f s i x).2.ledgers i =
        (reversibleCall funcName f (s.ledgers i) x).2 := by
  refine ⟨⟨?_, ?_, ?_⟩, ?_, rfl, ?_⟩
  · simp only [wrapReversible]
    omega
  · simp [wrapReversible]
  · simp [wrapReversible]
  · simp only [callReversible]
    rw [if_neg (fun e => h e.symm)]
  · simp [callReversible]

theorem claim_c9_witness :
    (callReversible "identity" (fun x => x) emptySystem 0 5).2.ledgers 1 = [] :=
  (claim_c9 "identity" (fun x => x) emptySystem 5 0 1 (by decide)).2.1

/-- C10: the control-flow checker decides acceptance solely from the static
name table — functions with equal `co_names` are accepted or rejected alike —
and the concrete function `branchy_abs`, whose body branches on its runtime
argument yet whose `co_names` holds none of the forbidden strings, is
returned unchanged without raising (both branches of its behaviour shown). -/
theorem claim_c10 :
    (∀ p q : PyFunction, p.coNames = q.coNames → cfAccepts p = cfAccepts q)
    ∧ no_control_flow_divergence branchyAbs = Except.ok branchyAbs
    ∧ (∀ k ∈ forbiddenNames, ¬ k ∈ branchyAbs.coNames)
    ∧ branchyAbs.fn 3 = 3 ∧ branchyAbs.fn (-5) = 5 := by
  refine ⟨?_, rfl, by decide, rfl, rfl⟩
  intro p q hpq
  rw [cfAccepts_eq, cfAccepts_eq, hpq]

theorem claim_c10_witness :
    cfAccepts branchyAbs = cfAccepts ⟨"plain", [], fun x => x⟩ :=
  claim_c10.1 branchyAbs ⟨"plain", [], fun x => x⟩ rfl
